import Mathlib

/-!
# The `deploy` command of `juju` and the `bootstrap` command of `jujud`

A shallow embedding of `juju/deploy.go` (`DeployCommand.Init`, `DeployCommand.Run`)
and of the argument resolution of `jujud bootstrap`, of which only the test
`jujud/bootstrap_test.go` is at hand.

Go values are embedded as follows.

* An `error` is a value with a message; `nil` is `none` of `Option Error`.
* A method with a pointer receiver that mutates the command returns the
  command after the call next to its result.
* The collaborators of `Run` (`juju.NewConnFromName`, `conn.State.EnvironConfig`,
  `charm.InferURL`, `charm.InferRepository`, `conn.PutCharm`, `conn.AddService`,
  `conn.AddUnits`, `conn.Close`) live in other packages. They are the fields of
  a `World`, each a transition on a store state of an arbitrary type; `Run`
  threads that store through its calls and logs every call it makes, with
  the outcome, in a trace.
* `gnuflag.FlagSet.Parse`, `os.Getenv` and `addEnvironFlags` are parameters of
  `Init`.
-/

namespace Juju

/-! ## Errors -/

/-- A Go `error`: a value carrying a message. -/
structure Error where
  msg : String
deriving DecidableEq, Repr

/-- Go `errors.New`. -/
def errors.New (text : String) : Error := ⟨text⟩

/-! ## The command -/

/-- Go `cmd.FileVar`, of which `Run` reads only `Path`, a `*string`. -/
structure FileVar where
  Path : Option String
deriving DecidableEq, Repr

/-- Go `DeployCommand` (deploy.go, lines 12-20). -/
structure DeployCommand where
  EnvName : String
  CharmName : String
  ServiceName : String
  Config : FileVar
  NumUnits : Int
  BumpRevision : Bool
  RepoPath : String
deriving DecidableEq, Repr

/-- The zero value of `DeployCommand`, as made by `&DeployCommand{}`. -/
def DeployCommand.zero : DeployCommand :=
  { EnvName := "", CharmName := "", ServiceName := "", Config := ⟨none⟩,
    NumUnits := 0, BumpRevision := false, RepoPath := "" }

/-! ## Flag parsing -/

/-- The variables of the command that `Init` binds to flags. -/
structure Flags where
  EnvName : String
  NumUnits : Int
  BumpRevision : Bool
  Config : FileVar
  RepoPath : String
deriving DecidableEq, Repr

/-- What `Init` takes from outside `deploy.go`.

* `addEnvironFlags` gives the value the environment-name variable holds once
  the environment flags are registered on it.
* `Getenv` is `os.Getenv`.
* `Parse` is `f.Parse(true, args)` followed by `f.Args()`: from the bound
  variables as registration left them and the argument list, the bound
  variables after parsing (a failing parse may already have set some) and
  either the parse error or the positional arguments left. -/
structure InitDeps where
  addEnvironFlags : String → String
  Getenv : String → String
  Parse : Flags → List String → Flags × Except Error (List String)

/-- Store the bound variables back into the command; `CharmName` and
`ServiceName` are bound to no flag. -/
def DeployCommand.withFlags (c : DeployCommand) (fl : Flags) : DeployCommand :=
  { c with EnvName := fl.EnvName, NumUnits := fl.NumUnits, BumpRevision := fl.BumpRevision,
           Config := fl.Config, RepoPath := fl.RepoPath }

/-- Quote the arguments one by one, separated by blanks, between brackets. -/
def quoteArgs (args : List String) : String :=
  "[" ++ " ".intercalate (args.map (fun a => "\"" ++ a ++ "\"")) ++ "]"

/-- Modelled from the spec: `cmd.CheckEmpty` is not among the sources. The
spec has leftover positional arguments fail with an error naming them
verbatim, and `TestParse` shows its text, `unrecognized args: ["..."]`; an
empty list is no error. -/
def cmd.CheckEmpty (args : List String) : Option Error :=
  match args with
  | [] => none
  | _ :: _ => some ⟨"unrecognized args: " ++ quoteArgs args⟩

/-- The `switch len(args)` of `Init` (deploy.go, lines 62-72): `.error r` when
the switch returns `r` from `Init`, `.ok c` when control leaves the switch. -/
def Init.switch (c : DeployCommand) (args : List String) :
    Except (DeployCommand × Option Error) DeployCommand :=
  match args with
  | [a0, a1] =>
    -- case 2, falling through to case 1
    let c := { c with ServiceName := a1 }
    let c := { c with CharmName := a0 }
    .ok c
  | [a0] =>
    let c := { c with CharmName := a0 }
    .ok c
  | [] => .error (c, some (errors.New "no charm specified"))
  | _ :: _ :: rest => .error (c, cmd.CheckEmpty rest)

/-- The registration of the flags (deploy.go, lines 50-56): registering a
flag stores its default in the variable it is bound to; `f.Var` leaves
`c.Config` as it is. -/
def Init.register (d : InitDeps) (c : DeployCommand) : Flags :=
  { EnvName := d.addEnvironFlags c.EnvName, NumUnits := 1, BumpRevision := false,
    Config := c.Config, RepoPath := d.Getenv "JUJU_REPOSITORY" }

/-- Go `DeployCommand.Init` (deploy.go, lines 49-77): the command after the
call and the error returned. -/
def DeployCommand.Init (d : InitDeps) (c : DeployCommand) (args : List String) :
    DeployCommand × Option Error :=
  match d.Parse (Init.register d c) args with
  | (fl, .error err) => (c.withFlags fl, some err)
  | (fl, .ok args) =>
    match Init.switch (c.withFlags fl) args with
    | .error r => r
    | .ok c =>
      if c.NumUnits < 1 then
        (c, some (errors.New "must deploy at least one unit"))
      else
        (c, none)

/-! ## Collaborators of `Run` -/

/-- Go `*juju.Conn`. -/
structure Conn where
  id : Nat
deriving DecidableEq, Repr

/-- Go `*config.Config`, of which `Run` reads `DefaultSeries()`. -/
structure Config where
  DefaultSeries : String
deriving DecidableEq, Repr

/-- Go `*charm.URL`. -/
structure URL where
  text : String
deriving DecidableEq, Repr

/-- Go `charm.Repository`. -/
structure Repository where
  id : Nat
deriving DecidableEq, Repr

/-- Go `*state.Charm`, of which `Run` reads `Meta().Subordinate`. -/
structure Charm where
  id : Nat
  Subordinate : Bool
deriving DecidableEq, Repr

/-- Go `*state.Service`. -/
structure Service where
  id : Nat
deriving DecidableEq, Repr

/-- Go `*state.Unit`. -/
structure StateUnit where
  id : Nat
deriving DecidableEq, Repr

/-- Go `*cmd.Context`, of which `Run` uses `AbsPath`. -/
structure Context where
  AbsPath : String → String

deriving instance DecidableEq for Except

/-- The operations `Run` invokes on its collaborators. -/
inductive Op where
  | connect | environConfig | inferURL | inferRepository | putCharm | addService | addUnits
  | close
deriving DecidableEq, Repr

/-- One entry of the trace: a call of `Run` to a collaborator, with its
arguments and with what it returned. The result of `Close` is dropped by
`defer` and is not recorded. -/
inductive Event where
  | NewConnFromName (envName : String) (res : Except Error Conn)
  | EnvironConfig (conn : Conn) (res : Except Error Config)
  | InferURL (name : String) (series : String) (res : Except Error URL)
  | InferRepository (curl : URL) (path : String) (res : Except Error Repository)
  | PutCharm (conn : Conn) (curl : URL) (repo : Repository) (bump : Bool)
      (res : Except Error Charm)
  | AddService (conn : Conn) (name : String) (ch : Charm) (res : Except Error Service)
  | AddUnits (conn : Conn) (svc : Service) (n : Int) (res : Except Error (List StateUnit))
  | Close (conn : Conn)
deriving DecidableEq, Repr

/-- The operation of a trace entry. -/
def Event.op : Event → Op
  | .NewConnFromName _ _ => .connect
  | .EnvironConfig _ _ => .environConfig
  | .InferURL _ _ _ => .inferURL
  | .InferRepository _ _ _ => .inferRepository
  | .PutCharm _ _ _ _ _ => .putCharm
  | .AddService _ _ _ _ => .addService
  | .AddUnits _ _ _ _ => .addUnits
  | .Close _ => .close

/-- The error of a result, the `err` of Go: `none` is `nil`. -/
def errOf {α : Type} : Except Error α → Option Error
  | .error e => some e
  | .ok _ => none

/-- The error the call of a trace entry returned. -/
def Event.err : Event → Option Error
  | .NewConnFromName _ res => errOf res
  | .EnvironConfig _ res => errOf res
  | .InferURL _ _ res => errOf res
  | .InferRepository _ _ res => errOf res
  | .PutCharm _ _ _ _ res => errOf res
  | .AddService _ _ _ res => errOf res
  | .AddUnits _ _ _ res => errOf res
  | .Close _ => none

/-- The collaborators, as transitions on a store of type `σ`. -/
structure World (σ : Type) where
  NewConnFromName : String → σ → Except Error Conn × σ
  EnvironConfig : Conn → σ → Except Error Config × σ
  InferURL : String → String → σ → Except Error URL × σ
  InferRepository : URL → String → σ → Except Error Repository × σ
  PutCharm : Conn → URL → Repository → Bool → σ → Except Error Charm × σ
  AddService : Conn → String → Charm → σ → Except Error Service × σ
  AddUnits : Conn → Service → Int → σ → Except Error (List StateUnit) × σ
  Close : Conn → σ → σ

/-- What a run leaves: the error returned, the store, the calls made. -/
structure Outcome (σ : Type) where
  err : Option Error
  store : σ
  trace : List Event

/-- The body of `Run` after `defer conn.Close()` (deploy.go, lines 85-113),
from store `s`; `tr` is the trace so far. -/
def Run.body {σ : Type} (w : World σ) (c : DeployCommand) (ctx : Context) (conn : Conn)
    (s : σ) (tr : List Event) : Outcome σ :=
  let r := w.EnvironConfig conn s
  let tr := tr ++ [.EnvironConfig conn r.1]
  match r.1 with
  | .error err => ⟨some err, r.2, tr⟩
  | .ok conf =>
    let r := w.InferURL c.CharmName conf.DefaultSeries r.2
    let tr := tr ++ [.InferURL c.CharmName conf.DefaultSeries r.1]
    match r.1 with
    | .error err => ⟨some err, r.2, tr⟩
    | .ok curl =>
      let r := w.InferRepository curl (ctx.AbsPath c.RepoPath) r.2
      let tr := tr ++ [.InferRepository curl (ctx.AbsPath c.RepoPath) r.1]
      match r.1 with
      | .error err => ⟨some err, r.2, tr⟩
      | .ok repo =>
        let r := w.PutCharm conn curl repo c.BumpRevision r.2
        let tr := tr ++ [.PutCharm conn curl repo c.BumpRevision r.1]
        match r.1 with
        | .error err => ⟨some err, r.2, tr⟩
        | .ok ch =>
          if c.Config.Path ≠ none then
            -- TODO many dependencies :(
            ⟨some (errors.New "state.Service.SetConfig not implemented (format 2...)"), r.2, tr⟩
          else
            let r := w.AddService conn c.ServiceName ch r.2
            let tr := tr ++ [.AddService conn c.ServiceName ch r.1]
            match r.1 with
            | .error err => ⟨some err, r.2, tr⟩
            | .ok svc =>
              if ch.Subordinate then
                ⟨none, r.2, tr⟩
              else
                let r := w.AddUnits conn svc c.NumUnits r.2
                let tr := tr ++ [.AddUnits conn svc c.NumUnits r.1]
                ⟨errOf r.1, r.2, tr⟩

/-- Go `DeployCommand.Run` (deploy.go, lines 79-114), from store `s`. The
deferred `conn.Close()` runs when the body has returned. -/
def DeployCommand.Run {σ : Type} (w : World σ) (c : DeployCommand) (ctx : Context) (s : σ) :
    Outcome σ :=
  let r := w.NewConnFromName c.EnvName s
  let tr := [Event.NewConnFromName c.EnvName r.1]
  match r.1 with
  | .error err => ⟨some err, r.2, tr⟩
  | .ok conn =>
    let out := Run.body w c ctx conn r.2 tr
    ⟨out.err, w.Close conn out.store, out.trace ++ [.Close conn]⟩

/-! ## Concrete instances

The theorems below hold for every flag parser and every world. The instances
here are used to evaluate `Init` and `Run` on concrete inputs. -/

/-- The value of a decimal digit. -/
def digitVal (ch : Char) : Option Nat :=
  if 48 ≤ ch.toNat ∧ ch.toNat ≤ 57 then some (ch.toNat - 48) else none

/-- The number written by a list of decimal digits, after `acc`. -/
def natOfDigits : Nat → List Char → Option Nat
  | acc, [] => some acc
  | acc, ch :: cs =>
    match digitVal ch with
    | none => none
    | some d => natOfDigits (acc * 10 + d) cs

/-- A decimal integer with an optional minus sign. -/
def atoi (text : String) : Option Int :=
  match text.data with
  | [] => none
  | '-' :: d :: ds => (natOfDigits 0 (d :: ds)).map (fun n => -(n : Int))
  | d :: ds => (natOfDigits 0 (d :: ds)).map (fun n => (n : Int))

/-- Whether an argument is written as a flag: a dash and at least one more
character. -/
def isFlag (arg : String) : Bool :=
  match arg.data with
  | '-' :: _ :: _ => true
  | _ => false

/-- A flag parser for the deploy flags in their spellings `-x value` and
`--name value` (`-u` and `--upgrade` take no value), with flags and
positional arguments interspersed and `--` ending the flags: `pos` holds the
positional arguments met so far, last first. -/
def sampleParse.go : Flags → List String → List String → Flags × Except Error (List String)
  | fl, pos, [] => (fl, .ok pos.reverse)
  | fl, pos, [arg] =>
    if arg = "--" then (fl, .ok pos.reverse)
    else if arg = "-u" ∨ arg = "--upgrade" then
      ({ fl with BumpRevision := true }, .ok pos.reverse)
    else if arg = "-n" ∨ arg = "--num-units" ∨ arg = "--config" ∨ arg = "--repository"
        ∨ arg = "-e" ∨ arg = "--environment" then
      (fl, .error ⟨"flag needs an argument: " ++ arg⟩)
    else if isFlag arg then (fl, .error ⟨"flag provided but not defined: " ++ arg⟩)
    else (fl, .ok (arg :: pos).reverse)
  | fl, pos, arg :: val :: rest =>
    if arg = "--" then (fl, .ok (pos.reverse ++ val :: rest))
    else if arg = "-u" ∨ arg = "--upgrade" then
      sampleParse.go { fl with BumpRevision := true } pos (val :: rest)
    else if arg = "-n" ∨ arg = "--num-units" then
      match atoi val with
      | none => (fl, .error ⟨"invalid value for flag " ++ arg ++ ": " ++ val⟩)
      | some n => sampleParse.go { fl with NumUnits := n } pos rest
    else if arg = "--config" then
      sampleParse.go { fl with Config := ⟨some val⟩ } pos rest
    else if arg = "--repository" then
      sampleParse.go { fl with RepoPath := val } pos rest
    else if arg = "-e" ∨ arg = "--environment" then
      sampleParse.go { fl with EnvName := val } pos rest
    else if isFlag arg then (fl, .error ⟨"flag provided but not defined: " ++ arg⟩)
    else sampleParse.go fl (arg :: pos) (val :: rest)

/-- The sample flag parser, from no positional argument met. -/
def sampleParse (fl : Flags) (args : List String) : Flags × Except Error (List String) :=
  sampleParse.go fl [] args

/-- Sample surroundings of `Init`: the environment flags default to the empty
name, `JUJU_REPOSITORY` is `/repo`, flags are parsed by `sampleParse`. -/
def sampleDeps : InitDeps :=
  { addEnvironFlags := fun _ => "",
    Getenv := fun name => if name = "JUJU_REPOSITORY" then "/repo" else "",
    Parse := sampleParse }

/-- A call of the sample world: it fails with `e` when its operation is
`failing`, and otherwise returns `v` and writes the operation to the store. -/
def sampleCall {α : Type} (failing : Option Op) (e : Error) (op : Op) (v : α) (s : List Op) :
    Except Error α × List Op :=
  if failing = some op then (.error e, s) else (.ok v, s ++ [op])

/-- A sample world over a store that lists the operations that succeeded:
every collaborator succeeds but the one named by `failing`, which fails with
`e`; the charm published is subordinate when `sub` is set. -/
def sampleWorld (failing : Option Op) (e : Error) (sub : Bool) : World (List Op) :=
  { NewConnFromName := fun _ => sampleCall failing e .connect ⟨1⟩,
    EnvironConfig := fun _ => sampleCall failing e .environConfig ⟨"precise"⟩,
    InferURL := fun name series =>
      sampleCall failing e .inferURL ⟨"cs:" ++ series ++ "/" ++ name⟩,
    InferRepository := fun _ _ => sampleCall failing e .inferRepository ⟨2⟩,
    PutCharm := fun _ _ _ _ => sampleCall failing e .putCharm ⟨3, sub⟩,
    AddService := fun _ _ _ => sampleCall failing e .addService ⟨4⟩,
    AddUnits := fun _ _ n =>
      sampleCall failing e .addUnits ((List.range n.toNat).map (fun i => ⟨i⟩)),
    Close := fun _ s => s ++ [.close] }

/-- A sample context: every path is taken as it is. -/
def sampleCtx : Context := ⟨fun path => path⟩

/-- A command as `deploy mysql` leaves it: one unit, no service name. -/
def mysqlCmd : DeployCommand :=
  { EnvName := "", CharmName := "mysql", ServiceName := "", Config := ⟨none⟩,
    NumUnits := 1, BumpRevision := false, RepoPath := "/repo" }

/-! ## `jujud bootstrap`

`jujud/bootstrap.go` is not at hand; `TestParse` and `TestSetMachineId` in
`jujud/bootstrap_test.go` are. The command is modelled from the spec, with
the error texts and the default address the test asserts. -/

/-- Modelled from the spec: the Command Request of `bootstrap` (spec, section
3, `mapping of recognized option name → parsed value, plus positional
arguments`), which `jujud/bootstrap.go`, not among the sources, resolves:
each recognized option with its value when it is given, and the positional
arguments. -/
structure BootstrapRequest where
  zookeeperServers : Option (List String)
  instanceId : Option String
  envType : Option String
  positional : List String
deriving DecidableEq, Repr

/-- Modelled from the spec: the Bootstrap Intent (spec, section 3), with the
field names `TestParse` reads from the `BootstrapCommand` of
`jujud/bootstrap.go`, which is not among the sources. -/
structure BootstrapCommand where
  StateInfoAddrs : List String
  InstanceId : String
  EnvType : String
deriving DecidableEq, Repr

/-- Modelled from the spec: `BootstrapCommand.Init` of `jujud/bootstrap.go`,
which is not among the sources. Spec, section 4.5: the instance identifier
and the environment type are required, `instance id checked before
environment type`; the addresses default to a single loopback endpoint;
section 4.1: leftover positional arguments are an error naming them. The
error texts and the default address are those `TestParse` asserts. -/
def BootstrapCommand.Init (req : BootstrapRequest) : Except Error BootstrapCommand :=
  match req.instanceId with
  | none => .error (errors.New "--instance-id option must be set")
  | some instanceId =>
    match req.envType with
    | none => .error (errors.New "--env-type option must be set")
    | some envType =>
      match cmd.CheckEmpty req.positional with
      | some err => .error err
      | none =>
        .ok { StateInfoAddrs := req.zookeeperServers.getD ["127.0.0.1:2181"],
              InstanceId := instanceId, EnvType := envType }

/-- Modelled from the spec: a call of the bootstrap workflow of
`jujud/bootstrap.go`, which is not among the sources, to the store
collaborators of spec sections 4.5 and 6, with what it returned. -/
inductive BootstrapEvent where
  | Initialize (addrs : List String) (res : Except Error Conn)
  | RegisterBootstrapMachine (conn : Conn) (instanceId : String) (res : Except Error Nat)
  | Close (conn : Conn)
deriving DecidableEq, Repr

/-- Modelled from the spec: the store collaborators of the bootstrap workflow
of `jujud/bootstrap.go`, which is not among the sources (spec, sections 4.5
and 6), as transitions on a store of type `σ`. -/
structure BootstrapWorld (σ : Type) where
  Initialize : List String → σ → Except Error Conn × σ
  RegisterBootstrapMachine : Conn → String → σ → Except Error Nat × σ
  Close : Conn → σ → σ

/-- Modelled from the spec: what a bootstrap of `jujud/bootstrap.go`, which is
not among the sources, leaves: the error returned, the store, the calls
made. -/
structure BootstrapOutcome (σ : Type) where
  err : Option Error
  store : σ
  trace : List BootstrapEvent

/-- Modelled from the spec: `BootstrapCommand.Run` of `jujud/bootstrap.go`,
which is not among the sources. Spec, section 4.5: `initialize or attach to
the store at the given addresses, then record a new machine entry whose
instance identifier equals the supplied value`; section 5: the connection is
released on every exit path. -/
def BootstrapCommand.Run {σ : Type} (w : BootstrapWorld σ) (c : BootstrapCommand) (s : σ) :
    BootstrapOutcome σ :=
  let r := w.Initialize c.StateInfoAddrs s
  let tr := [BootstrapEvent.Initialize c.StateInfoAddrs r.1]
  match r.1 with
  | .error err => ⟨some err, r.2, tr⟩
  | .ok conn =>
    let m := w.RegisterBootstrapMachine conn c.InstanceId r.2
    ⟨errOf m.1, w.Close conn m.2,
      tr ++ [.RegisterBootstrapMachine conn c.InstanceId m.1, .Close conn]⟩

/-- Modelled from the spec: the command line entry for `bootstrap`, which is
not among the sources. Spec, section 2: the entry `calls its
argument-resolution step once, then its execution step once`; a request
that does not resolve fails there, and the execution step is not run. -/
def bootstrap {σ : Type} (w : BootstrapWorld σ) (req : BootstrapRequest) (s : σ) :
    BootstrapOutcome σ :=
  match BootstrapCommand.Init req with
  | .error err => ⟨some err, s, []⟩
  | .ok c => c.Run w s

/-- A sample bootstrap world over a store that lists the instance
identifiers of the machines registered: every call succeeds. -/
def sampleBootstrapWorld : BootstrapWorld (List String) :=
  { Initialize := fun _ s => (.ok ⟨1⟩, s),
    RegisterBootstrapMachine := fun _ instanceId s => (.ok s.length, s ++ [instanceId]),
    Close := fun _ s => s }

/-! ## Lemmas on `Run` -/

/-- The body of `Run` never calls `Close`. -/
theorem Run.body_no_close {σ : Type} (w : World σ) (c : DeployCommand) (ctx : Context)
    (conn : Conn) (s : σ) (tr : List Event) (htr : ∀ ev ∈ tr, ev.op ≠ .close) :
    ∀ ev ∈ (Run.body w c ctx conn s tr).trace, ev.op ≠ .close := by
  simp only [Run.body]
  repeat' split
  all_goals
    simp only [List.forall_mem_append, List.forall_mem_singleton]
    repeat' apply And.intro
    all_goals first | exact htr | simp [Event.op]

/-! ## The claims on `Run` -/

/-- C1: the calls of `Run` other than the final `Close` follow the order
connect, environment config, infer charm URL, infer repository, publish
charm, create service, create units, each at most once (the operations of
the trace without `Close` are a prefix of that list); a call that fails is
the last of them and `Run` returns its error as it is; when connect fails the
trace holds that call alone and the store is as connect left it. -/
theorem Run_calls_in_order_until_first_failure {σ : Type} (w : World σ) (c : DeployCommand)
    (ctx : Context) (s : σ) :
    (((c.Run w ctx s).trace.filter (fun ev => ev.op ≠ .close)).map Event.op <+:
        [.connect, .environConfig, .inferURL, .inferRepository, .putCharm, .addService,
          .addUnits]) ∧
    (∀ ev ∈ (c.Run w ctx s).trace, ∀ e, ev.err = some e →
        (c.Run w ctx s).err = some e ∧
        ((c.Run w ctx s).trace.filter (fun ev => ev.op ≠ .close)).getLast? = some ev) ∧
    (∀ e, (w.NewConnFromName c.EnvName s).1 = .error e →
        (c.Run w ctx s).trace = [.NewConnFromName c.EnvName (.error e)] ∧
        (c.Run w ctx s).store = (w.NewConnFromName c.EnvName s).2 ∧
        (c.Run w ctx s).err = some e) := by
  simp only [DeployCommand.Run, Run.body]
  repeat' split
  all_goals simp_all [Event.op, Event.err, errOf]

/-- A run of `deploy mysql` in which every collaborator succeeds makes the
seven calls in order and then closes the connection. -/
theorem Run_calls_in_order_until_first_failure_witness :
    (((mysqlCmd.Run (sampleWorld none ⟨""⟩ false) sampleCtx []).trace.filter
        (fun ev => ev.op ≠ .close)).map Event.op <+:
        [.connect, .environConfig, .inferURL, .inferRepository, .putCharm, .addService,
          .addUnits]) ∧
    (mysqlCmd.Run (sampleWorld (some .connect) ⟨"no environment"⟩ false) sampleCtx []).trace
      = [.NewConnFromName "" (.error ⟨"no environment"⟩)] ∧
    (mysqlCmd.Run (sampleWorld (some .connect) ⟨"no environment"⟩ false) sampleCtx []).store
      = [] :=
  ⟨(Run_calls_in_order_until_first_failure (sampleWorld none ⟨""⟩ false) mysqlCmd sampleCtx
      []).1,
    ((Run_calls_in_order_until_first_failure (sampleWorld (some .connect) ⟨"no environment"⟩
      false) mysqlCmd sampleCtx []).2.2 ⟨"no environment"⟩ rfl).1,
    ((Run_calls_in_order_until_first_failure (sampleWorld (some .connect) ⟨"no environment"⟩
      false) mysqlCmd sampleCtx []).2.2 ⟨"no environment"⟩ rfl).2.1⟩

/-- C2: in a run in which connect, the environment configuration, the
charm resolution and `PutCharm` succeed, the world answering `ch` for the
charm published. When `ch` is subordinate, `Run` never calls `AddUnits`: no
trace entry is one, the store is closed right after `AddService` (after
`PutCharm` when a configuration file is given), and when `AddService`
succeeded `Run` returns `nil`. When `ch` is principal, no configuration file
is given and `AddService` answers `svc`, `Run` calls `AddUnits` exactly
once, from the store `AddService` left, with the connection, `svc` and
`c.NumUnits`; it returns the error the world gives for that call and closes
the store that call left. -/
theorem Run_creates_units_for_principal_charm_only {σ : Type} (w : World σ)
    (c : DeployCommand) (ctx : Context) (s s1 s2 s3 s4 s5 : σ) (conn : Conn) (conf : Config)
    (curl : URL) (repo : Repository) (ch : Charm)
    (h1 : w.NewConnFromName c.EnvName s = (.ok conn, s1))
    (h2 : w.EnvironConfig conn s1 = (.ok conf, s2))
    (h3 : w.InferURL c.CharmName conf.DefaultSeries s2 = (.ok curl, s3))
    (h4 : w.InferRepository curl (ctx.AbsPath c.RepoPath) s3 = (.ok repo, s4))
    (h5 : w.PutCharm conn curl repo c.BumpRevision s4 = (.ok ch, s5)) :
    (ch.Subordinate = true →
      (∀ ev ∈ (c.Run w ctx s).trace, ev.op ≠ .addUnits) ∧
      (c.Config.Path ≠ none → (c.Run w ctx s).store = w.Close conn s5) ∧
      (c.Config.Path = none →
        (c.Run w ctx s).store = w.Close conn (w.AddService conn c.ServiceName ch s5).2) ∧
      (∀ svc s6, c.Config.Path = none →
        w.AddService conn c.ServiceName ch s5 = (.ok svc, s6) →
        (c.Run w ctx s).err = none ∧ (c.Run w ctx s).store = w.Close conn s6 ∧
        (c.Run w ctx s).trace =
          [.NewConnFromName c.EnvName (.ok conn), .EnvironConfig conn (.ok conf),
            .InferURL c.CharmName conf.DefaultSeries (.ok curl),
            .InferRepository curl (ctx.AbsPath c.RepoPath) (.ok repo),
            .PutCharm conn curl repo c.BumpRevision (.ok ch),
            .AddService conn c.ServiceName ch (.ok svc), .Close conn])) ∧
    (ch.Subordinate = false →
      ∀ svc s6, c.Config.Path = none →
        w.AddService conn c.ServiceName ch s5 = (.ok svc, s6) →
        (c.Run w ctx s).trace =
          [.NewConnFromName c.EnvName (.ok conn), .EnvironConfig conn (.ok conf),
            .InferURL c.CharmName conf.DefaultSeries (.ok curl),
            .InferRepository curl (ctx.AbsPath c.RepoPath) (.ok repo),
            .PutCharm conn curl repo c.BumpRevision (.ok ch),
            .AddService conn c.ServiceName ch (.ok svc),
            .AddUnits conn svc c.NumUnits (w.AddUnits conn svc c.NumUnits s6).1,
            .Close conn] ∧
        (c.Run w ctx s).err = errOf (w.AddUnits conn svc c.NumUnits s6).1 ∧
        (c.Run w ctx s).store = w.Close conn (w.AddUnits conn svc c.NumUnits s6).2) := by
  refine ⟨fun hsub => ⟨?_, fun hcfg => ?_, fun hcfg => ?_, fun svc s6 hcfg h6 => ?_⟩,
    fun hsub svc s6 hcfg h6 => ?_⟩
  · by_cases hcfg : c.Config.Path = none
    · rcases h6 : w.AddService conn c.ServiceName ch s5 with ⟨_ | svc, s6⟩ <;>
        simp [DeployCommand.Run, Run.body, h1, h2, h3, h4, h5, h6, hcfg, hsub, Event.op]
    · simp [DeployCommand.Run, Run.body, h1, h2, h3, h4, h5, hcfg, Event.op]
  · simp [DeployCommand.Run, Run.body, h1, h2, h3, h4, h5, hcfg]
  · rcases h6 : w.AddService conn c.ServiceName ch s5 with ⟨_ | svc, s6⟩ <;>
      simp [DeployCommand.Run, Run.body, h1, h2, h3, h4, h5, h6, hcfg, hsub]
  · simp [DeployCommand.Run, Run.body, h1, h2, h3, h4, h5, h6, hcfg, hsub]
  · simp [DeployCommand.Run, Run.body, h1, h2, h3, h4, h5, h6, hcfg, hsub]

/-- The command `deploy mysql` in the sample world, whose store lists the
operations that succeeded. With a subordinate charm `AddUnits` is absent
from the trace and from the store and `Run` succeeds; with a principal charm
`AddUnits` is called once for one unit of the service created and is in the
store; when the world fails `AddUnits`, `Run` returns that error and the
store has no `addUnits`. -/
theorem Run_creates_units_for_principal_charm_only_witness :
    ((∀ ev ∈ (mysqlCmd.Run (sampleWorld none ⟨""⟩ true) sampleCtx []).trace,
        ev.op ≠ .addUnits) ∧
      (mysqlCmd.Run (sampleWorld none ⟨""⟩ true) sampleCtx []).err = none ∧
      (mysqlCmd.Run (sampleWorld none ⟨""⟩ true) sampleCtx []).store
        = [.connect, .environConfig, .inferURL, .inferRepository, .putCharm, .addService,
            .close]) ∧
    ((mysqlCmd.Run (sampleWorld none ⟨""⟩ false) sampleCtx []).trace.filter
        (fun ev => ev.op = .addUnits) = [.AddUnits ⟨1⟩ ⟨4⟩ 1 (.ok [⟨0⟩])] ∧
      (mysqlCmd.Run (sampleWorld none ⟨""⟩ false) sampleCtx []).err = none ∧
      (mysqlCmd.Run (sampleWorld none ⟨""⟩ false) sampleCtx []).store
        = [.connect, .environConfig, .inferURL, .inferRepository, .putCharm, .addService,
            .addUnits, .close]) ∧
    ((mysqlCmd.Run (sampleWorld (some .addUnits) ⟨"no machine"⟩ false) sampleCtx []).err
        = some ⟨"no machine"⟩ ∧
      (mysqlCmd.Run (sampleWorld (some .addUnits) ⟨"no machine"⟩ false) sampleCtx []).store
        = [.connect, .environConfig, .inferURL, .inferRepository, .putCharm, .addService,
            .close]) := by
  have hsub := (Run_creates_units_for_principal_charm_only (sampleWorld none ⟨""⟩ true)
    mysqlCmd sampleCtx [] [.connect] [.connect, .environConfig]
    [.connect, .environConfig, .inferURL]
    [.connect, .environConfig, .inferURL, .inferRepository]
    [.connect, .environConfig, .inferURL, .inferRepository, .putCharm]
    ⟨1⟩ ⟨"precise"⟩ ⟨"cs:precise/mysql"⟩ ⟨2⟩ ⟨3, true⟩ rfl rfl rfl rfl rfl).1 rfl
  have hsvc := hsub.2.2.2 ⟨4⟩
    [.connect, .environConfig, .inferURL, .inferRepository, .putCharm, .addService] rfl rfl
  have hprin := (Run_creates_units_for_principal_charm_only (sampleWorld none ⟨""⟩ false)
    mysqlCmd sampleCtx [] [.connect] [.connect, .environConfig]
    [.connect, .environConfig, .inferURL]
    [.connect, .environConfig, .inferURL, .inferRepository]
    [.connect, .environConfig, .inferURL, .inferRepository, .putCharm]
    ⟨1⟩ ⟨"precise"⟩ ⟨"cs:precise/mysql"⟩ ⟨2⟩ ⟨3, false⟩ rfl rfl rfl rfl rfl).2 rfl ⟨4⟩
    [.connect, .environConfig, .inferURL, .inferRepository, .putCharm, .addService] rfl rfl
  have hfail := (Run_creates_units_for_principal_charm_only
    (sampleWorld (some .addUnits) ⟨"no machine"⟩ false)
    mysqlCmd sampleCtx [] [.connect] [.connect, .environConfig]
    [.connect, .environConfig, .inferURL]
    [.connect, .environConfig, .inferURL, .inferRepository]
    [.connect, .environConfig, .inferURL, .inferRepository, .putCharm]
    ⟨1⟩ ⟨"precise"⟩ ⟨"cs:precise/mysql"⟩ ⟨2⟩ ⟨3, false⟩ rfl rfl rfl rfl rfl).2 rfl ⟨4⟩
    [.connect, .environConfig, .inferURL, .inferRepository, .putCharm, .addService] rfl rfl
  refine ⟨⟨hsub.1, hsvc.1, ?_⟩, ⟨?_, ?_, ?_⟩, ?_, ?_⟩
  · rw [hsvc.2.1]; rfl
  · rw [hprin.1]; rfl
  · rw [hprin.2.1]; rfl
  · rw [hprin.2.2]; rfl
  · rw [hfail.2.1]; rfl
  · rw [hfail.2.2]; rfl

/-- C3: when connect succeeds, the trace of `Run` ends with `Close` on the
connection acquired and holds no other `Close`, and the store is closed
after the body has run; when connect fails the trace holds no `Close`. -/
theorem Run_closes_connection_once_at_end {σ : Type} (w : World σ) (c : DeployCommand)
    (ctx : Context) (s : σ) :
    (∀ conn, (w.NewConnFromName c.EnvName s).1 = .ok conn →
        (∃ front, (c.Run w ctx s).trace = front ++ [.Close conn] ∧
          ∀ ev ∈ front, ev.op ≠ .close) ∧
        (c.Run w ctx s).store = w.Close conn
          (Run.body w c ctx conn (w.NewConnFromName c.EnvName s).2
            [.NewConnFromName c.EnvName (.ok conn)]).store) ∧
    (∀ e, (w.NewConnFromName c.EnvName s).1 = .error e →
        ∀ ev ∈ (c.Run w ctx s).trace, ev.op ≠ .close) := by
  refine ⟨fun conn h => ?_, fun e h => ?_⟩
  · simp only [DeployCommand.Run, h]
    refine ⟨⟨_, rfl, ?_⟩, trivial⟩
    apply Run.body_no_close
    simp [Event.op]
  · simp [DeployCommand.Run, h, Event.op]

/-- A run that fails at `AddService` still ends with the one `Close`; a run
that fails to connect has none. -/
theorem Run_closes_connection_once_at_end_witness :
    (∃ front, (mysqlCmd.Run (sampleWorld (some .addService) ⟨"duplicate"⟩ false) sampleCtx
          []).trace = front ++ [.Close ⟨1⟩] ∧
        ∀ ev ∈ front, ev.op ≠ .close) ∧
    (∀ ev ∈ (mysqlCmd.Run (sampleWorld (some .connect) ⟨"no environment"⟩ false) sampleCtx
        []).trace, ev.op ≠ .close) :=
  ⟨((Run_closes_connection_once_at_end (sampleWorld (some .addService) ⟨"duplicate"⟩ false)
      mysqlCmd sampleCtx []).1 ⟨1⟩ rfl).1,
    (Run_closes_connection_once_at_end (sampleWorld (some .connect) ⟨"no environment"⟩ false)
      mysqlCmd sampleCtx []).2 ⟨"no environment"⟩ rfl⟩

/-- C7: with a configuration file path set, `Run` returns an error and calls
neither `AddService` nor `AddUnits`; when `PutCharm` succeeded, the error is
the one that says `SetConfig` is not implemented. -/
theorem Run_with_config_file_not_implemented {σ : Type} (w : World σ) (c : DeployCommand)
    (ctx : Context) (s : σ) (hcfg : c.Config.Path ≠ none) :
    (c.Run w ctx s).err ≠ none ∧
    (∀ ev ∈ (c.Run w ctx s).trace, ev.op ≠ .addService ∧ ev.op ≠ .addUnits) ∧
    (∀ conn curl repo bump ch,
        Event.PutCharm conn curl repo bump (.ok ch) ∈ (c.Run w ctx s).trace →
        (c.Run w ctx s).err
          = some (errors.New "state.Service.SetConfig not implemented (format 2...)")) := by
  simp only [DeployCommand.Run, Run.body]
  repeat' split
  all_goals simp_all [Event.op, Event.err, errOf]

/-- The command `deploy mysql --config cfg.yaml` in a world where every call
succeeds: `Run` returns the not-implemented error and makes no
`AddService` or `AddUnits` call. -/
theorem Run_with_config_file_not_implemented_witness :
    ({ mysqlCmd with Config := ⟨some "cfg.yaml"⟩ } : DeployCommand).Config.Path ≠ none ∧
    (({ mysqlCmd with Config := ⟨some "cfg.yaml"⟩ } : DeployCommand).Run
        (sampleWorld none ⟨""⟩ false) sampleCtx []).err
      = some (errors.New "state.Service.SetConfig not implemented (format 2...)") ∧
    (∀ ev ∈ (({ mysqlCmd with Config := ⟨some "cfg.yaml"⟩ } : DeployCommand).Run
        (sampleWorld none ⟨""⟩ false) sampleCtx []).trace,
      ev.op ≠ .addService ∧ ev.op ≠ .addUnits) :=
  ⟨by decide,
    (Run_with_config_file_not_implemented (sampleWorld none ⟨""⟩ false)
      { mysqlCmd with Config := ⟨some "cfg.yaml"⟩ } sampleCtx [] (by decide)).2.2
      ⟨1⟩ ⟨"cs:precise/mysql"⟩ ⟨2⟩ false ⟨3, false⟩ (by decide),
    (Run_with_config_file_not_implemented (sampleWorld none ⟨""⟩ false)
      { mysqlCmd with Config := ⟨some "cfg.yaml"⟩ } sampleCtx [] (by decide)).2.1⟩

/-- C8, as the code has it: when `AddService` succeeded and `AddUnits` then
failed with `e`, `Run` returns `e` itself, and the trace ends with the
successful `AddService`, the failing `AddUnits` on the service it returned
and `Close`: no call undoes the service. -/
theorem Run_units_failure_returned_unchanged {σ : Type} (w : World σ) (c : DeployCommand)
    (ctx : Context) (s : σ) (conn conn2 : Conn) (name : String) (ch : Charm)
    (svc svc2 : Service) (n : Int) (e : Error)
    (hsvc : Event.AddService conn name ch (.ok svc) ∈ (c.Run w ctx s).trace)
    (hunits : Event.AddUnits conn2 svc2 n (.error e) ∈ (c.Run w ctx s).trace) :
    (c.Run w ctx s).err = some e ∧
    ∃ front, (c.Run w ctx s).trace = front ++
      [.AddService conn name ch (.ok svc), .AddUnits conn svc c.NumUnits (.error e),
        .Close conn] := by
  revert hsvc hunits
  simp only [DeployCommand.Run, Run.body]
  repeat' split
  all_goals simp_all [Event.op, Event.err, errOf]
  all_goals
    intros
    subst_vars
    rename_i hres
    rw [← hres]
    exact ⟨rfl, [_, _, _, _, _], rfl⟩

/-- A run of `deploy mysql` in which `AddUnits` fails returns the error
`AddUnits` gave. -/
theorem Run_units_failure_returned_unchanged_witness :
    Event.AddService ⟨1⟩ "" ⟨3, false⟩ (.ok ⟨4⟩)
      ∈ (mysqlCmd.Run (sampleWorld (some .addUnits) ⟨"store unreachable"⟩ false) sampleCtx
          []).trace ∧
    Event.AddUnits ⟨1⟩ ⟨4⟩ 1 (.error ⟨"store unreachable"⟩)
      ∈ (mysqlCmd.Run (sampleWorld (some .addUnits) ⟨"store unreachable"⟩ false) sampleCtx
          []).trace ∧
    (mysqlCmd.Run (sampleWorld (some .addUnits) ⟨"store unreachable"⟩ false) sampleCtx
      []).err = some ⟨"store unreachable"⟩ :=
  ⟨by decide, by decide,
    (Run_units_failure_returned_unchanged (sampleWorld (some .addUnits) ⟨"store unreachable"⟩
      false) mysqlCmd sampleCtx [] ⟨1⟩ ⟨1⟩ "" ⟨3, false⟩ ⟨4⟩ ⟨4⟩ 1 ⟨"store unreachable"⟩
      (by decide) (by decide)).1⟩

/-- C8 fails on the code: a run in which `AddService` succeeds and `AddUnits`
fails with the error `store unreachable`, and a run in which `AddService`
itself fails with that error, return the same result. -/
theorem Run_units_failure_same_as_service_failure :
    Event.AddService ⟨1⟩ "" ⟨3, false⟩ (.ok ⟨4⟩)
      ∈ (mysqlCmd.Run (sampleWorld (some .addUnits) ⟨"store unreachable"⟩ false) sampleCtx
          []).trace ∧
    Event.AddUnits ⟨1⟩ ⟨4⟩ 1 (.error ⟨"store unreachable"⟩)
      ∈ (mysqlCmd.Run (sampleWorld (some .addUnits) ⟨"store unreachable"⟩ false) sampleCtx
          []).trace ∧
    Event.AddService ⟨1⟩ "" ⟨3, false⟩ (.error ⟨"store unreachable"⟩)
      ∈ (mysqlCmd.Run (sampleWorld (some .addService) ⟨"store unreachable"⟩ false) sampleCtx
          []).trace ∧
    (∀ ev ∈ (mysqlCmd.Run (sampleWorld (some .addService) ⟨"store unreachable"⟩ false)
        sampleCtx []).trace, ev.op ≠ .addUnits) ∧
    (mysqlCmd.Run (sampleWorld (some .addUnits) ⟨"store unreachable"⟩ false) sampleCtx []).err
      = (mysqlCmd.Run (sampleWorld (some .addService) ⟨"store unreachable"⟩ false) sampleCtx
          []).err := by
  decide

/-- What `Init` and `Run` do with the positional arguments: on an argument
list that parses with a unit count of at least 1, `Init` succeeds with
`CharmName` the first positional argument; with two positional arguments
`ServiceName` is the second, with one it is left as it was before the call;
and every `AddService` call of `Run` on the command `Init` leaves is made
with that `ServiceName`. The name under which `conn.AddService` then creates
the service is decided in that collaborator. -/
theorem Init_names_from_positionals {σ : Type} (d : InitDeps) (c : DeployCommand)
    (args : List String) (fl : Flags) (pos : List String) (w : World σ) (ctx : Context) (s : σ)
    (hp : d.Parse (Init.register d c) args = (fl, .ok pos)) (hn : 1 ≤ fl.NumUnits) :
    (∀ a0 a1, pos = [a0, a1] →
        (c.Init d args).2 = none ∧ (c.Init d args).1.CharmName = a0 ∧
        (c.Init d args).1.ServiceName = a1 ∧
        ∀ conn name ch res,
          Event.AddService conn name ch res ∈ ((c.Init d args).1.Run w ctx s).trace →
          name = a1) ∧
    (∀ a0, pos = [a0] →
        (c.Init d args).2 = none ∧ (c.Init d args).1.CharmName = a0 ∧
        (c.Init d args).1.ServiceName = c.ServiceName ∧
        ∀ conn name ch res,
          Event.AddService conn name ch res ∈ ((c.Init d args).1.Run w ctx s).trace →
          name = c.ServiceName) := by
  have hrun : ∀ (cmd : DeployCommand) conn name ch res,
      Event.AddService conn name ch res ∈ (cmd.Run w ctx s).trace → name = cmd.ServiceName := by
    intro cmd
    simp only [DeployCommand.Run, Run.body]
    repeat' split
    all_goals simp_all
  have hlt : ¬ fl.NumUnits < 1 := by omega
  refine ⟨fun a0 a1 h => ?_, fun a0 h => ?_⟩
  · subst h
    have hi : c.Init d args
        = ({ c.withFlags fl with ServiceName := a1, CharmName := a0 }, none) := by
      simp [DeployCommand.Init, hp, Init.switch, DeployCommand.withFlags, hlt]
    rw [hi]
    refine ⟨rfl, rfl, rfl, fun conn name ch res h => ?_⟩
    have h2 := hrun _ conn name ch res h
    exact h2
  · subst h
    have hi : c.Init d args = ({ c.withFlags fl with CharmName := a0 }, none) := by
      simp [DeployCommand.Init, hp, Init.switch, DeployCommand.withFlags, hlt]
    rw [hi]
    refine ⟨rfl, rfl, rfl, fun conn name ch res h => ?_⟩
    have h2 := hrun _ conn name ch res h
    exact h2

/-- C4: when the flags parse and leave no positional argument, `Init` fails
with `no charm specified`, whatever the flags are set to. -/
theorem Init_no_charm_specified (d : InitDeps) (c : DeployCommand) (args : List String)
    (fl : Flags) (hp : d.Parse (Init.register d c) args = (fl, .ok [])) :
    (c.Init d args).2 = some (errors.New "no charm specified") := by
  simp [DeployCommand.Init, hp, Init.switch]

/-- The arguments `-n 0`: the flags parse, with a unit count of 0 and no
positional argument, and `Init` fails with `no charm specified`. -/
theorem Init_no_charm_specified_witness :
    sampleDeps.Parse (Init.register sampleDeps DeployCommand.zero) ["-n", "0"]
      = ({ EnvName := "", NumUnits := 0, BumpRevision := false, Config := ⟨none⟩,
           RepoPath := "/repo" }, .ok []) ∧
    (DeployCommand.zero.Init sampleDeps ["-n", "0"]).2
      = some (errors.New "no charm specified") :=
  ⟨by decide, Init_no_charm_specified sampleDeps DeployCommand.zero ["-n", "0"]
    { EnvName := "", NumUnits := 0, BumpRevision := false, Config := ⟨none⟩,
      RepoPath := "/repo" } (by decide)⟩

/-- C5, as the code has it: when the flags parse with a unit count below 1
and leave one or two positional arguments, `Init` fails with
`must deploy at least one unit`. -/
theorem Init_at_least_one_unit (d : InitDeps) (c : DeployCommand) (args : List String)
    (fl : Flags) (pos : List String)
    (hp : d.Parse (Init.register d c) args = (fl, .ok pos)) (hn : fl.NumUnits < 1)
    (hlen : pos.length = 1 ∨ pos.length = 2) :
    (c.Init d args).2 = some (errors.New "must deploy at least one unit") := by
  match pos, hlen with
  | [a0], _ => simp [DeployCommand.Init, hp, Init.switch, DeployCommand.withFlags, hn]
  | [a0, a1], _ => simp [DeployCommand.Init, hp, Init.switch, DeployCommand.withFlags, hn]
  | [], h => simp at h
  | _ :: _ :: _ :: _, h => simp at h

/-- The arguments `mysql --num-units 0`: the flags parse with a unit count of
0 and one positional argument, and `Init` fails on the unit count. -/
theorem Init_at_least_one_unit_witness :
    sampleDeps.Parse (Init.register sampleDeps DeployCommand.zero) ["mysql", "--num-units", "0"]
      = ({ EnvName := "", NumUnits := 0, BumpRevision := false, Config := ⟨none⟩,
           RepoPath := "/repo" }, .ok ["mysql"]) ∧
    (DeployCommand.zero.Init sampleDeps ["mysql", "--num-units", "0"]).2
      = some (errors.New "must deploy at least one unit") :=
  ⟨by decide, Init_at_least_one_unit sampleDeps DeployCommand.zero
    ["mysql", "--num-units", "0"]
    { EnvName := "", NumUnits := 0, BumpRevision := false, Config := ⟨none⟩,
      RepoPath := "/repo" }
    ["mysql"] (by decide) (by decide) (by decide)⟩

/-- C5 fails on the code: on the arguments `-n 0` the flags parse with a
unit count of 0, and `Init` fails with `no charm specified`, not with
`must deploy at least one unit`. -/
theorem Init_zero_units_without_charm :
    (sampleDeps.Parse (Init.register sampleDeps DeployCommand.zero) ["-n", "0"]).2 = .ok [] ∧
    (sampleDeps.Parse (Init.register sampleDeps DeployCommand.zero) ["-n", "0"]).1.NumUnits
      < 1 ∧
    (DeployCommand.zero.Init sampleDeps ["-n", "0"]).2
      = some (errors.New "no charm specified") ∧
    (DeployCommand.zero.Init sampleDeps ["-n", "0"]).2
      ≠ some (errors.New "must deploy at least one unit") := by
  decide

/-- C9, as the code has it: when `Init` fails because the flags do not parse
or because the positional arguments are not one or two, `CharmName` and
`ServiceName` are as before the call; when it fails on the unit count,
`CharmName` is already the first positional argument and, with two
positional arguments, `ServiceName` the second. -/
theorem Init_failure_and_positional_fields (d : InitDeps) (c : DeployCommand)
    (args : List String) :
    (∀ e, (d.Parse (Init.register d c) args).2 = .error e →
        (c.Init d args).2 = some e ∧ (c.Init d args).1.CharmName = c.CharmName ∧
        (c.Init d args).1.ServiceName = c.ServiceName) ∧
    (∀ pos, (d.Parse (Init.register d c) args).2 = .ok pos →
        pos.length ≠ 1 → pos.length ≠ 2 →
        (c.Init d args).2 ≠ none ∧ (c.Init d args).1.CharmName = c.CharmName ∧
        (c.Init d args).1.ServiceName = c.ServiceName) ∧
    (∀ pos, (d.Parse (Init.register d c) args).2 = .ok pos →
        (d.Parse (Init.register d c) args).1.NumUnits < 1 →
        (∀ a0, pos = [a0] →
          (c.Init d args).2 = some (errors.New "must deploy at least one unit") ∧
          (c.Init d args).1.CharmName = a0 ∧
          (c.Init d args).1.ServiceName = c.ServiceName) ∧
        (∀ a0 a1, pos = [a0, a1] →
          (c.Init d args).2 = some (errors.New "must deploy at least one unit") ∧
          (c.Init d args).1.CharmName = a0 ∧ (c.Init d args).1.ServiceName = a1)) := by
  rcases hP : d.Parse (Init.register d c) args with ⟨fl, r⟩
  refine ⟨fun e he => ?_, fun pos hpos h1 h2 => ?_, fun pos hpos hn => ⟨fun a0 h => ?_,
    fun a0 a1 h => ?_⟩⟩
  · simp only at he
    subst he
    simp [DeployCommand.Init, hP, DeployCommand.withFlags]
  · simp only at hpos
    subst hpos
    match pos, h1, h2 with
    | [], _, _ => simp [DeployCommand.Init, hP, Init.switch, DeployCommand.withFlags]
    | _ :: _ :: _ :: _, _, _ =>
      simp [DeployCommand.Init, hP, Init.switch, DeployCommand.withFlags, cmd.CheckEmpty]
    | [_], h, _ => simp at h
    | [_, _], _, h => simp at h
  · simp only at hpos hn
    subst hpos h
    simp [DeployCommand.Init, hP, Init.switch, DeployCommand.withFlags, hn]
  · simp only at hpos hn
    subst hpos h
    simp [DeployCommand.Init, hP, Init.switch, DeployCommand.withFlags, hn]

/-- The arguments `mysql --bogus` do not parse and leave both names empty;
the arguments `mysql myservice -n 0` fail on the unit count with both names
set. -/
theorem Init_failure_and_positional_fields_witness :
    ((DeployCommand.zero.Init sampleDeps ["mysql", "--bogus"]).2
        = some ⟨"flag provided but not defined: --bogus"⟩ ∧
      (DeployCommand.zero.Init sampleDeps ["mysql", "--bogus"]).1.CharmName = "" ∧
      (DeployCommand.zero.Init sampleDeps ["mysql", "--bogus"]).1.ServiceName = "") ∧
    ((DeployCommand.zero.Init sampleDeps ["mysql", "myservice", "-n", "0"]).2
        = some (errors.New "must deploy at least one unit") ∧
      (DeployCommand.zero.Init sampleDeps ["mysql", "myservice", "-n", "0"]).1.CharmName
        = "mysql" ∧
      (DeployCommand.zero.Init sampleDeps ["mysql", "myservice", "-n", "0"]).1.ServiceName
        = "myservice") :=
  ⟨(Init_failure_and_positional_fields sampleDeps DeployCommand.zero ["mysql", "--bogus"]).1
      ⟨"flag provided but not defined: --bogus"⟩ (by decide),
    ((Init_failure_and_positional_fields sampleDeps DeployCommand.zero
      ["mysql", "myservice", "-n", "0"]).2.2 ["mysql", "myservice"] (by decide)
      (by decide)).2 "mysql" "myservice" rfl⟩

/-- C9 fails on the code: on the arguments `mysql -n 0` `Init` returns an
error, and `CharmName`, empty before the call, is `mysql` after it. -/
theorem Init_failure_with_charm_name_set :
    (DeployCommand.zero.Init sampleDeps ["mysql", "-n", "0"]).2
      = some (errors.New "must deploy at least one unit") ∧
    DeployCommand.zero.CharmName = "" ∧
    (DeployCommand.zero.Init sampleDeps ["mysql", "-n", "0"]).1.CharmName = "mysql" ∧
    (DeployCommand.zero.Init sampleDeps ["mysql", "-n", "0"]).1.CharmName
      ≠ DeployCommand.zero.CharmName := by
  decide

/-! ## The claim on `bootstrap` -/

/-- C10: the required options of `bootstrap` are checked in a fixed order:
a request without `--instance-id` fails with
`--instance-id option must be set`, with or without `--env-type`; a request
with `--instance-id` and without `--env-type` fails with
`--env-type option must be set`; either way the command makes no call to
the store and leaves it as it was. -/
theorem bootstrap_required_options_in_order {σ : Type} (w : BootstrapWorld σ)
    (req : BootstrapRequest) (s : σ) :
    (req.instanceId = none →
        BootstrapCommand.Init req = .error (errors.New "--instance-id option must be set") ∧
        (bootstrap w req s).err = some (errors.New "--instance-id option must be set") ∧
        (bootstrap w req s).trace = [] ∧ (bootstrap w req s).store = s) ∧
    (∀ instanceId, req.instanceId = some instanceId → req.envType = none →
        BootstrapCommand.Init req = .error (errors.New "--env-type option must be set") ∧
        (bootstrap w req s).err = some (errors.New "--env-type option must be set") ∧
        (bootstrap w req s).trace = [] ∧ (bootstrap w req s).store = s) := by
  refine ⟨fun h => ?_, fun instanceId h1 h2 => ?_⟩
  · simp [bootstrap, BootstrapCommand.Init, h]
  · simp [bootstrap, BootstrapCommand.Init, h1, h2]

/-- The first two requests of `TestParse`: no option at all, then
`--instance-id iWhatever` alone; and a request with `--env-type` alone. -/
theorem bootstrap_required_options_in_order_witness :
    BootstrapCommand.Init ⟨none, none, none, []⟩
      = .error (errors.New "--instance-id option must be set") ∧
    BootstrapCommand.Init ⟨none, none, some "dummy", []⟩
      = .error (errors.New "--instance-id option must be set") ∧
    BootstrapCommand.Init ⟨none, some "iWhatever", none, []⟩
      = .error (errors.New "--env-type option must be set") ∧
    (bootstrap sampleBootstrapWorld ⟨none, some "iWhatever", none, []⟩ []).trace = [] :=
  ⟨((bootstrap_required_options_in_order sampleBootstrapWorld ⟨none, none, none, []⟩ []).1
      rfl).1,
    ((bootstrap_required_options_in_order sampleBootstrapWorld ⟨none, none, some "dummy", []⟩
      []).1 rfl).1,
    ((bootstrap_required_options_in_order sampleBootstrapWorld
      ⟨none, some "iWhatever", none, []⟩ []).2 "iWhatever" rfl rfl).1,
    ((bootstrap_required_options_in_order sampleBootstrapWorld
      ⟨none, some "iWhatever", none, []⟩ []).2 "iWhatever" rfl rfl).2.2.1⟩

end Juju
